import Mathlib

/-!
Verification of the FALKON estimator utilities (`falkon/models/model_utils.py`)
and the fused kernel-product contract exercised by `falkon/tests/test_kernels.py`.

The Python code is shallowly embedded: tensors become a record of shape,
element type, device, layout and flat rational data together with an object
identity tag; methods that may raise become `Except`-valued functions; the
estimator's mutable attributes become an explicit state record threaded
through `predict`.  Helper functions that live outside the excerpt
(`sizeof_dtype`, `check_same_dtype`, `is_f_contig`, `should_use_keops`,
`str.lower`) are modelled from the spec and documented as such.
-/

open Matrix

/-- Element types of the tensors exercised by the repository
(`numpy_to_torch_type` in the tests accepts exactly float32 and float64). -/
inductive DType
  | float32
  | float64
deriving DecidableEq, Repr

/-- Modelled from the spec: `sizeof_dtype` from `falkon.utils.helpers` (not under
`src/`); the size in bytes of one element of the given element type. -/
def sizeof_dtype : DType → Nat
  | .float32 => 4
  | .float64 => 8

/-- A dense tensor.  `dims` is the shape, `data` the flat element values,
`device` the device index, `tid` an object-identity tag distinguishing
distinct allocations that hold equal values.  `fContigStrict` records the
result of `is_f_contig(t, strict=True)` (`falkon.utils.tensor_helpers`, not
under `src/`), modelled from the spec as a layout flag: `true` means the
tensor is strictly Fortran-contiguous, `false` that it is C-ordered. -/
structure Tensor where
  dims : List Nat
  dtype : DType
  device : Nat
  fContigStrict : Bool
  tid : Nat
  data : List ℚ
deriving DecidableEq, Repr

/-- `t.size(i)` of a torch tensor. -/
def Tensor.size (t : Tensor) (i : Nat) : Nat := t.dims.getD i 0

/-- `t.dim()` of a torch tensor: the number of axes. -/
def Tensor.dim (t : Tensor) : Nat := t.dims.length

/-- `t.shape[0]` of a torch tensor. -/
def Tensor.shape0 (t : Tensor) : Nat := t.dims.headD 0

/-- `torch.unsqueeze(t, 1)`: insert a singleton axis at position 1. -/
def Tensor.unsqueeze1 (t : Tensor) : Tensor :=
  { t with dims := t.dims.take 1 ++ 1 :: t.dims.drop 1 }

/-- The option fields of `FalkonOptions` read by `model_utils.py`
(the options dataclass itself is outside `src/`; fields are named as in the
source). -/
structure FalkonOptions where
  never_store_kernel : Bool
  store_kernel_d_threshold : Nat
  debug : Bool
deriving DecidableEq, Repr

/-- `FalkonBase._can_store_knm(X, ny_points, available_ram)`.

Translated statement by statement from `model_utils.py`.  The Python function
returns `True`, `False`, or — when `X.size(1) > store_threshold`, the budget
is insufficient and `options.debug` is off — falls off the end of the
function and returns `None`; hence the result type `Option Bool`
(`none` models Python's `None`). -/
def _can_store_knm (opts : FalkonOptions) (X ny_points : Tensor) (available_ram : Nat) :
    Option Bool :=
  if opts.never_store_kernel then
    some false
  else if X.size 1 > opts.store_kernel_d_threshold then
    if available_ram > X.size 0 * ny_points.size 0 * sizeof_dtype X.dtype then
      some true
    else if opts.debug then
      some false
    else
      none
  else
    some false

/-- The caching decision as consumed by a Python `if`: `None` is falsy, so the
kernel matrix is stored exactly when `_can_store_knm` returns `True`. -/
def stores_knm (opts : FalkonOptions) (X ny_points : Tensor) (available_ram : Nat) : Bool :=
  (_can_store_knm opts X ny_points available_ram).getD false

/-- `to_c_contig(tensor, name, warn)` from `model_utils.py`: a strictly
F-contiguous tensor is copied to C order (`np.asarray(..., order="C")`) and
moved back to its original device; anything else (including `None`) is
returned unchanged.  `fresh` is the identity tag of the newly allocated
copy; the warning is a log-only side effect and is not modelled. -/
def to_c_contig (tensor : Option Tensor) (fresh : Nat) : Option Tensor :=
  match tensor with
  | some t =>
    if t.fContigStrict then
      some { t with fContigStrict := false, tid := fresh }
    else
      some t
  | none => none

/-- `to_c_contig` applied to a tensor that is known not to be `None`. -/
def to_c_contig1 (t : Tensor) (fresh : Nat) : Tensor :=
  (to_c_contig (some t) fresh).getD t

/-- Modelled from the spec: `check_same_dtype` from `falkon.utils.helpers`
(not under `src/`) — both tensors share one numeric element type. -/
def check_same_dtype (a b : Tensor) : Bool := decide (a.dtype = b.dtype)

/-- Errors raised by `FalkonBase._check_fit_inputs`: `shapeMismatch` and
`badYDim` are `ValueError`s (shape errors), `dtypeMismatch` is the
`TypeError`. -/
inductive FitError
  | shapeMismatch (nx ny : Nat)
  | badYDim (d : Nat)
  | dtypeMismatch
deriving DecidableEq, Repr

/-- Whether a fit-input error is the `TypeError` (as opposed to a shape
`ValueError`). -/
def FitError.isTypeError : FitError → Bool
  | .dtypeMismatch => true
  | _ => false

/-- The `if Y.dim() == 1: Y = torch.unsqueeze(Y, 1)` step of
`_check_fit_inputs`: the rebinding of `Y` after the optional 1-D→2-D
promotion. -/
def normalizeY (Y : Tensor) : Tensor :=
  if Y.dim = 1 then Y.unsqueeze1 else Y

/-- `FalkonBase._check_fit_inputs(X, Y, Xts, Yts)` from `model_utils.py`.

`keops` is the value of `should_use_keops(X, X, self.options)` (the KeOps
heuristic lives outside `src/` and is modelled from the spec as an external
boolean collaborator); `fresh` supplies identity tags for the copies that
KeOps contiguity normalization may allocate. -/
def _check_fit_inputs (keops : Bool) (fresh : Nat) (X Y : Tensor)
    (Xts Yts : Option Tensor) :
    Except FitError (Tensor × Tensor × Option Tensor × Option Tensor) :=
  if X.shape0 ≠ Y.shape0 then
    .error (.shapeMismatch X.shape0 Y.shape0)
  else if (normalizeY Y).dim ≠ 2 then
    .error (.badYDim (normalizeY Y).dim)
  else if check_same_dtype X (normalizeY Y) = false then
    .error .dtypeMismatch
  else if keops then
    .ok (to_c_contig1 X fresh, to_c_contig1 (normalizeY Y) (fresh + 1),
         to_c_contig Xts (fresh + 2), to_c_contig Yts (fresh + 3))
  else
    .ok (X, normalizeY Y, Xts, Yts)

/-- The error raised by `FalkonBase._check_predict_inputs` when the model has
not been fitted (`RuntimeError` in the source). -/
inductive PredictError
  | notFitted
deriving DecidableEq, Repr

/-- The mutable attributes of `FalkonBase` that `predict` reads: the fitted
coefficients `alpha_` and the Nyström centers `ny_points_` (both `None`
until `fit` completes). -/
structure ModelState where
  alpha_ : Option (List ℚ)
  ny_points_ : Option Tensor
deriving DecidableEq, Repr

/-- `FalkonBase._check_predict_inputs(X)` from `model_utils.py`: raise if the
model is not fitted, then normalize `X` for KeOps if required. -/
def _check_predict_inputs (keops : Bool) (fresh : Nat) (st : ModelState) (X : Tensor) :
    Except PredictError Tensor :=
  if st.alpha_ = none ∨ st.ny_points_ = none then
    .error .notFitted
  else
    .ok (if keops then to_c_contig1 X fresh else X)

/-- `FalkonBase.predict(X)` from `model_utils.py`.  `_predict` is abstract in
the source (implemented by each solver variant), so it is a parameter; the
state component of the result records the attributes after the call. -/
def predict (pred : Tensor → Option Tensor → Option (List ℚ) → Tensor)
    (keops : Bool) (fresh : Nat) (st : ModelState) (X : Tensor) :
    ModelState × Except PredictError Tensor :=
  match _check_predict_inputs keops fresh st X with
  | .error e => (st, .error e)
  | .ok X1 => (st, .ok (pred X1 st.ny_points_ st.alpha_))

/-- Center-selection strategies: the `UniformSelector(random_state, num_centers)`
built by `_init_center_selection`, or a user-supplied selector object
(identified by a tag). -/
inductive CenterSelector
  | uniform (random_state : Nat) (num_centers : Nat)
  | custom (tag : Nat)
deriving DecidableEq, Repr

/-- The `center_selection` argument of the constructor: either a strategy name
or a `CenterSelector` object. -/
inductive CenterSelectionArg
  | name (s : String)
  | selector (sel : CenterSelector)
deriving DecidableEq, Repr

/-- The `ValueError`s raised by `_init_center_selection`. -/
inductive ConfigError
  | missingM
  | invalidSelection (s : String)
deriving DecidableEq, Repr

/-- Python's `str.lower()` (the Lean core `String.toLower` is the same
character map but does not reduce in the kernel). -/
def strLower (s : String) : String := ⟨s.data.map Char.toLower⟩

/-- `FalkonBase._init_center_selection(center_selection)` from
`model_utils.py`; `M` is `self.M` and `rs` stands for `self.random_state_`. -/
def _init_center_selection (M : Option Nat) (rs : Nat) (cs : CenterSelectionArg) :
    Except ConfigError CenterSelector :=
  match cs with
  | .name s =>
    if strLower s = "uniform" then
      match M with
      | none => .error .missingM
      | some m => .ok (.uniform rs m)
    else
      .error (.invalidSelection s)
  | .selector sel => .ok sel

/-- The error component of an `Except` value. -/
def errOf {ε α : Type} : Except ε α → Option ε
  | .error e => some e
  | .ok _ => none

/-- The success component of an `Except` value. -/
def okOf {ε α : Type} : Except ε α → Option α
  | .error _ => none
  | .ok a => some a

/-- Modelled from the spec: a kernel is a pure function of two D-dimensional
points (the kernel implementations live outside `src/`; only their tests
are under `src/`).  `kernelMatrix k A B` is `K(A, B)`, the full n×m kernel
matrix on point sets `A` and `B`. -/
def kernelMatrix {n m d : ℕ} (k : (Fin d → ℚ) → (Fin d → ℚ) → ℚ)
    (A : Fin n → Fin d → ℚ) (B : Fin m → Fin d → ℚ) : Matrix (Fin n) (Fin m) ℚ :=
  Matrix.of fun i j => k (A i) (B j)

/-- Modelled from the spec: the fused `dmmv(A, B, v, w)` product — the
normal-equations operator computed row by row without materializing the
full kernel matrix, with an absent `v` or `w` treated as zero.  Each row
`i` of `A` contributes `kᵢᵀ (kᵢ v + wᵢ)` where `kᵢ` is the i-th kernel
row; the contributions are summed. -/
def dmmv {n m d t : ℕ} (k : (Fin d → ℚ) → (Fin d → ℚ) → ℚ)
    (A : Fin n → Fin d → ℚ) (B : Fin m → Fin d → ℚ)
    (v : Option (Matrix (Fin m) (Fin t) ℚ)) (w : Option (Matrix (Fin n) (Fin t) ℚ)) :
    Matrix (Fin m) (Fin t) ℚ :=
  ∑ i : Fin n, Matrix.of fun j s =>
    k (A i) (B j) * ((∑ j2 : Fin m, k (A i) (B j2) * (v.getD 0) j2 s) + (w.getD 0) i s)

/-! ### Concrete fixtures used by witnesses and counterexamples -/

/-- Options with caching enabled, dimension threshold 1, debug printing off. -/
def optsPlain : FalkonOptions :=
  { never_store_kernel := false, store_kernel_d_threshold := 1, debug := false }

/-- Options with `never_store_kernel` set. -/
def optsNever : FalkonOptions :=
  { never_store_kernel := true, store_kernel_d_threshold := 1, debug := false }

/-- A 1×2 float64 data tensor. -/
def tKX : Tensor :=
  { dims := [1, 2], dtype := .float64, device := 0, fContigStrict := false, tid := 0,
    data := [0, 0] }

/-- A 1×2 float64 centers tensor. -/
def tKNy : Tensor :=
  { dims := [1, 2], dtype := .float64, device := 0, fContigStrict := false, tid := 1,
    data := [1, 1] }

/-- A 2×1 float32 tensor. -/
def tX23f32 : Tensor :=
  { dims := [2, 1], dtype := .float32, device := 0, fContigStrict := false, tid := 2,
    data := [1, 2] }

/-- A 3×1 float64 tensor. -/
def tY3f64 : Tensor :=
  { dims := [3, 1], dtype := .float64, device := 0, fContigStrict := false, tid := 3,
    data := [1, 2, 3] }

/-- A 2×1 float64 tensor. -/
def tXfit : Tensor :=
  { dims := [2, 1], dtype := .float64, device := 0, fContigStrict := false, tid := 4,
    data := [1, 2] }

/-- A 1-D float64 tensor of length 2. -/
def tYfit : Tensor :=
  { dims := [2], dtype := .float64, device := 0, fContigStrict := false, tid := 5,
    data := [3, 4] }

/-- A 2×1 float32 tensor with the same row count as `tXfit`. -/
def tYfit32 : Tensor :=
  { dims := [2, 1], dtype := .float32, device := 0, fContigStrict := false, tid := 6,
    data := [3, 4] }

/-- A strictly F-contiguous 2×3 float32 tensor on device 1. -/
def tFcontig : Tensor :=
  { dims := [2, 3], dtype := .float32, device := 1, fContigStrict := true, tid := 7,
    data := [1, 2, 3, 4, 5, 6] }

/-- A model state where `fit` has not completed: `alpha_` is unset. -/
def stUnfit : ModelState := { alpha_ := none, ny_points_ := some tKNy }

/-! ### Helper lemmas -/

theorem to_c_contig1_dims (t : Tensor) (fresh : Nat) : (to_c_contig1 t fresh).dims = t.dims := by
  by_cases h : t.fContigStrict <;> simp [to_c_contig1, to_c_contig, h]

theorem to_c_contig1_data (t : Tensor) (fresh : Nat) : (to_c_contig1 t fresh).data = t.data := by
  by_cases h : t.fContigStrict <;> simp [to_c_contig1, to_c_contig, h]

theorem normalizeY_of_dims_one (Y : Tensor) (nn : Nat) (h : Y.dims = [nn]) :
    (normalizeY Y).dims = [nn, 1] ∧ (normalizeY Y).data = Y.data ∧
    (normalizeY Y).dtype = Y.dtype := by
  simp [normalizeY, Tensor.dim, Tensor.unsqueeze1, h]

theorem normalizeY_of_dim_ne_one (Y : Tensor) (h : Y.dim ≠ 1) : normalizeY Y = Y := by
  unfold normalizeY
  rw [if_neg h]

theorem normalizeY_dtype (Y : Tensor) : (normalizeY Y).dtype = Y.dtype := by
  unfold normalizeY
  split <;> rfl

theorem normalizeY_data (Y : Tensor) : (normalizeY Y).data = Y.data := by
  unfold normalizeY
  split <;> rfl

/-! ### Claim theorems -/

/-- Claim C1 (amended): with `never_store_kernel` off, the K_NM caching
decision follows the three-case rule, with a strict budget comparison: if D
is below the configured threshold the kernel is never cached regardless of
budget; if D is above the threshold and the budget strictly exceeds
`N*M*sizeof(dtype)` bytes it is always cached; if D is above the threshold
and the budget is at most that, it is never cached. -/
theorem can_store_knm_heuristic (opts : FalkonOptions) (X ny : Tensor) (ram : Nat)
    (hns : opts.never_store_kernel = false) :
    (X.size 1 < opts.store_kernel_d_threshold → stores_knm opts X ny ram = false) ∧
    (opts.store_kernel_d_threshold < X.size 1 →
      X.size 0 * ny.size 0 * sizeof_dtype X.dtype < ram →
      stores_knm opts X ny ram = true) ∧
    (opts.store_kernel_d_threshold < X.size 1 →
      ram ≤ X.size 0 * ny.size 0 * sizeof_dtype X.dtype →
      stores_knm opts X ny ram = false) := by
  unfold stores_knm _can_store_knm
  rw [hns]
  simp only [Bool.false_eq_true, if_false, gt_iff_lt]
  refine ⟨fun h1 => ?_, fun h1 h2 => ?_, fun h1 h2 => ?_⟩
  · rw [if_neg (by omega)]
    rfl
  · rw [if_pos h1, if_pos h2]
    rfl
  · rw [if_pos h1, if_neg (by omega)]
    split <;> rfl

/-- Witness for C1: with threshold 1, a 1×1 kernel block of float64 (8 bytes
needed), D = 2 and a 9-byte budget, the kernel matrix is cached. -/
theorem can_store_knm_heuristic_witness : stores_knm optsPlain tKX tKNy 9 = true :=
  (can_store_knm_heuristic optsPlain tKX tKNy 9 rfl).2.1 (by decide) (by decide)

/-- Counterexample to C1 as stated: at a budget exactly equal to
`N*M*sizeof(dtype)` (here 1*1*8 = 8 bytes) with D = 2 above the threshold 1
and caching not disabled, the claim says the kernel is always cached, but
the code compares with a strict `>` and does not cache. -/
theorem can_store_knm_claim_counterexample :
    optsPlain.never_store_kernel = false ∧
    optsPlain.store_kernel_d_threshold < tKX.size 1 ∧
    tKX.size 0 * tKNy.size 0 * sizeof_dtype tKX.dtype ≤ 8 ∧
    stores_knm optsPlain tKX tKNy 8 = false := by decide

/-- Claim C2 (failing path): when `never_store_kernel` is off, D exceeds the
threshold, the budget does not exceed the requirement and `debug` is off,
`_can_store_knm` falls off the end of the function and returns Python
`None` — not a boolean. -/
theorem can_store_knm_none_path : _can_store_knm optsPlain tKX tKNy 4 = none := by decide

/-- Claim C9: whenever the `never_store_kernel` option is set,
`_can_store_knm` returns `False`, regardless of dimensionality, dtype and
budget. -/
theorem can_store_knm_never_store (opts : FalkonOptions) (X ny : Tensor) (ram : Nat)
    (h : opts.never_store_kernel = true) :
    _can_store_knm opts X ny ram = some false := by
  unfold _can_store_knm
  rw [h]
  rfl

/-- Witness for C9: with `never_store_kernel` set, an ample budget and large
D still give `False`. -/
theorem can_store_knm_never_store_witness :
    _can_store_knm optsNever tKX tKNy 1000000 = some false :=
  can_store_knm_never_store optsNever tKX tKNy 1000000 rfl

/-- Claim C10: `to_c_contig` maps `None` to `None`; a tensor that is not
strictly F-contiguous is returned as the identical object; a strictly
F-contiguous tensor is returned as a newly allocated C-ordered tensor
(fresh identity tag, F-contiguity flag cleared) with the same shape,
element values and device as the input. -/
theorem to_c_contig_spec (t : Tensor) (fresh : Nat) :
    to_c_contig none fresh = none ∧
    (t.fContigStrict = false → to_c_contig (some t) fresh = some t) ∧
    (t.fContigStrict = true →
      (to_c_contig (some t) fresh).map
          (fun r => (r.dims, r.data, r.device, r.fContigStrict, r.tid)) =
        some (t.dims, t.data, t.device, false, fresh)) := by
  refine ⟨rfl, fun h => ?_, fun h => ?_⟩ <;> simp [to_c_contig, h]

/-- Witness for C10: the strictly F-contiguous tensor `tFcontig` (object tag
7, device 1) is copied to a C-ordered tensor with the fresh tag 9, equal
shape and values, on device 1. -/
theorem to_c_contig_spec_witness :
    (to_c_contig (some tFcontig) 9).map
        (fun r => (r.dims, r.data, r.device, r.fContigStrict, r.tid)) =
      some ([2, 3], [1, 2, 3, 4, 5, 6], 1, false, 9) :=
  (to_c_contig_spec tFcontig 9).2.2 rfl

/-- Claim C5: on a model whose fitted coefficients `alpha_` or centers
`ny_points_` are unset, `predict` raises the not-fitted error before any
prediction computation (the result does not depend on the `_predict`
implementation) and the model state is unchanged. -/
theorem predict_not_fitted (pred : Tensor → Option Tensor → Option (List ℚ) → Tensor)
    (keops : Bool) (fresh : Nat) (st : ModelState) (X : Tensor)
    (h : st.alpha_ = none ∨ st.ny_points_ = none) :
    predict pred keops fresh st X = (st, .error .notFitted) := by
  unfold predict _check_predict_inputs
  rw [if_pos h]

/-- Witness for C5: a state with `alpha_` unset makes `predict` return the
not-fitted error and leave the state untouched. -/
theorem predict_not_fitted_witness :
    predict (fun x _ _ => x) false 0 stUnfit tKX = (stUnfit, .error .notFitted) :=
  predict_not_fitted (fun x _ _ => x) false 0 stUnfit tKX (Or.inl rfl)

/-- Claim C8: when center selection is requested by the name "uniform"
(case-insensitively) and `M` is unset, a configuration error is raised;
any other name raises a configuration error; a supplied selector object is
used as-is, with no error regardless of `M`. -/
theorem init_center_selection_spec (M : Option Nat) (rs : Nat) (s : String)
    (sel : CenterSelector) :
    (strLower s = "uniform" → M = none →
      _init_center_selection M rs (.name s) = .error .missingM) ∧
    (strLower s ≠ "uniform" →
      _init_center_selection M rs (.name s) = .error (.invalidSelection s)) ∧
    _init_center_selection M rs (.selector sel) = .ok sel := by
  refine ⟨fun h1 h2 => ?_, fun h1 => ?_, rfl⟩
  · subst h2
    simp only [_init_center_selection]
    rw [if_pos h1]
  · simp only [_init_center_selection]
    rw [if_neg h1]

/-- Witness for C8: the mixed-case name "Uniform" with `M` unset raises the
missing-M error, and a custom selector object is returned as-is even with
`M` set. -/
theorem init_center_selection_spec_witness :
    _init_center_selection none 7 (.name "Uniform") = .error .missingM ∧
    _init_center_selection (some 5) 7 (.selector (.custom 3)) = .ok (.custom 3) :=
  ⟨(init_center_selection_spec none 7 "Uniform" (.custom 3)).1 (by decide) rfl,
   (init_center_selection_spec (some 5) 7 "Uniform" (.custom 3)).2.2⟩

/-- Claim C6 (amended): at the entry of fit, before any numerical
computation, mismatched row counts raise the shape error; the dtype check
runs after the shape checks, so a dtype mismatch raises the type error
when the row counts match and Y is 1- or 2-dimensional. -/
theorem check_fit_inputs_error_spec (keops : Bool) (fresh : Nat) (X Y : Tensor)
    (Xts Yts : Option Tensor) :
    (X.shape0 ≠ Y.shape0 →
      _check_fit_inputs keops fresh X Y Xts Yts =
        .error (.shapeMismatch X.shape0 Y.shape0)) ∧
    (X.shape0 = Y.shape0 → Y.dim = 1 ∨ Y.dim = 2 → X.dtype ≠ Y.dtype →
      _check_fit_inputs keops fresh X Y Xts Yts = .error .dtypeMismatch) := by
  constructor
  · intro h
    unfold _check_fit_inputs
    rw [if_pos h]
  · intro h1 h2 h3
    have hNd : (normalizeY Y).dim = 2 := by
      rcases h2 with h2 | h2
      · unfold normalizeY
        rw [if_pos h2]
        unfold Tensor.dim Tensor.unsqueeze1 at *
        simp [List.length_append, List.length_take, List.length_drop]
        omega
      · rw [normalizeY_of_dim_ne_one Y (by omega)]
        exact h2
    have hcs : check_same_dtype X (normalizeY Y) = false := by
      simp [check_same_dtype, normalizeY_dtype, h3]
    unfold _check_fit_inputs
    rw [if_neg (not_not_intro h1), if_neg (not_not_intro hNd), if_pos hcs]

/-- Counterexample to C6 as stated: inputs whose row counts and dtypes both
differ raise the shape `ValueError`, not the `TypeError` the claim promises
for every dtype mismatch. -/
theorem check_fit_inputs_claim_counterexample :
    tX23f32.dtype ≠ tY3f64.dtype ∧
    errOf (_check_fit_inputs false 0 tX23f32 tY3f64 none none) =
      some (.shapeMismatch 2 3) ∧
    (errOf (_check_fit_inputs false 0 tX23f32 tY3f64 none none)).map FitError.isTypeError =
      some false := by decide

/-- Witness for C6: equal row counts, 2-D targets and float64-vs-float32
inputs raise the type error. -/
theorem check_fit_inputs_error_spec_witness :
    _check_fit_inputs false 0 tXfit tYfit32 none none = .error .dtypeMismatch :=
  (check_fit_inputs_error_spec false 0 tXfit tYfit32 none none).2 rfl (Or.inr rfl)
    (by decide)

/-- Claim C7: under matching row counts and dtypes, a 1-D target of length
`nn` is promoted to an `nn`×1 single-column matrix with its values
unchanged; a 2-D target passes through with shape and values unchanged; any
other dimensionality raises the shape error; and every target returned by
validation is 2-dimensional. -/
theorem check_fit_inputs_y_norm (keops : Bool) (fresh : Nat) (X Y : Tensor)
    (Xts Yts : Option Tensor) (hrow : X.shape0 = Y.shape0) (hdt : X.dtype = Y.dtype) :
    (∀ nn : Nat, Y.dims = [nn] →
      (okOf (_check_fit_inputs keops fresh X Y Xts Yts)).map
          (fun r => (r.2.1.dims, r.2.1.data)) = some ([nn, 1], Y.data)) ∧
    (Y.dim = 2 →
      (okOf (_check_fit_inputs keops fresh X Y Xts Yts)).map
          (fun r => (r.2.1.dims, r.2.1.data)) = some (Y.dims, Y.data)) ∧
    (Y.dim ≠ 1 → Y.dim ≠ 2 →
      _check_fit_inputs keops fresh X Y Xts Yts = .error (.badYDim Y.dim)) ∧
    (∀ r, _check_fit_inputs keops fresh X Y Xts Yts = .ok r → r.2.1.dim = 2) := by
  have hcs : check_same_dtype X (normalizeY Y) = true := by
    simp [check_same_dtype, normalizeY_dtype, hdt]
  refine ⟨fun nn hY => ?_, fun h2 => ?_, fun h1 h2 => ?_, fun r hr => ?_⟩
  · obtain ⟨hNdims, hNdata, _⟩ := normalizeY_of_dims_one Y nn hY
    have hNd : (normalizeY Y).dim = 2 := by
      unfold Tensor.dim
      rw [hNdims]
      rfl
    unfold _check_fit_inputs
    rw [if_neg (not_not_intro hrow), if_neg (not_not_intro hNd), if_neg (by simp [hcs])]
    cases keops <;>
      simp [okOf, hNdims, hNdata, to_c_contig1_dims, to_c_contig1_data]
  · have hNY : normalizeY Y = Y := normalizeY_of_dim_ne_one Y (by omega)
    unfold _check_fit_inputs
    rw [if_neg (not_not_intro hrow), hNY, if_neg (not_not_intro h2),
      if_neg (by rw [← hNY]; simp [hcs])]
    cases keops <;> simp [okOf, to_c_contig1_dims, to_c_contig1_data]
  · have hNY : normalizeY Y = Y := normalizeY_of_dim_ne_one Y h1
    unfold _check_fit_inputs
    rw [if_neg (not_not_intro hrow), hNY, if_pos h2]
  · unfold _check_fit_inputs at hr
    split at hr
    · cases hr
    · split at hr
      · cases hr
      · rename_i hguard
        have hNd : (normalizeY Y).dim = 2 := not_ne_iff.mp hguard
        split at hr
        · cases hr
        · split at hr <;> cases hr <;>
            simpa [Tensor.dim, to_c_contig1_dims] using hNd

/-- Witness for C7: a length-2 1-D float64 target with a matching 2-row input
is promoted to a 2×1 column matrix carrying the same values. -/
theorem check_fit_inputs_y_norm_witness :
    (okOf (_check_fit_inputs false 0 tXfit tYfit none none)).map
        (fun r => (r.2.1.dims, r.2.1.data)) = some ([2, 1], tYfit.data) :=
  (check_fit_inputs_y_norm false 0 tXfit tYfit none none rfl rfl).1 2 rfl

/-- Claim C3: for every kernel `k` and point sets `A` (n×d), `B` (m×d), the
fused `dmmv` product — accumulated row by row without materializing the
kernel matrix — equals `K(A,B)ᵀ * (K(A,B) * v + w)`, where an omitted `v`
or `w` is treated as the zero matrix: `dmmv A B v none = Kᵀ * (K * v)` and
`dmmv A B none w = Kᵀ * w`. -/
theorem dmmv_spec {n m d t : ℕ} (k : (Fin d → ℚ) → (Fin d → ℚ) → ℚ)
    (A : Fin n → Fin d → ℚ) (B : Fin m → Fin d → ℚ)
    (v : Matrix (Fin m) (Fin t) ℚ) (w : Matrix (Fin n) (Fin t) ℚ) :
    dmmv k A B (some v) (some w) =
      (kernelMatrix k A B)ᵀ * (kernelMatrix k A B * v + w) ∧
    dmmv k A B (some v) none = (kernelMatrix k A B)ᵀ * (kernelMatrix k A B * v) ∧
    dmmv k A B none (some w) = (kernelMatrix k A B)ᵀ * w := by
  refine ⟨?_, ?_, ?_⟩ <;> ext j s <;>
    simp [dmmv, kernelMatrix, Matrix.sum_apply, Matrix.mul_apply, Matrix.transpose_apply,
      Matrix.add_apply]
